import Mathlib

/-!
# Verification of the AI scheduling agent

A shallow embedding of the scheduling agent's core: the CSV-backed store
operations (`tools.py`: patient lookup, slot query, booking, cancellation)
and the dialogue nodes (`agent.py`: router, greeting, calendar integration,
insurance collection, appointment confirmation).

Modelling conventions:
* CSV tables are Lean lists of records; a missing file and an empty file
  both behave identically in the source (every reader returns the neutral
  result) and are both modelled by the empty list.
* `pandas.to_datetime`/`datetime.strptime` date parsing is abstracted as an
  explicit function parameter (`parseDT`, `normalizeDate`); the current wall
  clock `datetime.now()` is an explicit `now` parameter; `uuid.uuid4()` and
  timestamps written to records are explicit arguments.
* Conversation "bag" dictionaries store a field as the empty string when the
  key is absent; this is observationally equal to the Python dictionaries on
  every path the claims touch, because the source tests fields with Python
  truthiness (`not d.get(k)`), under which a missing key and `""` coincide.
* Long natural-language reply texts are abbreviated to short tags; no claim
  depends on reply wording, only on which branch produced it.
-/

namespace SchedAgent

/-- Python `str.lower()`.  (The built-in `String.toLower` is backed by a
runtime primitive that the kernel cannot evaluate, so the character-list
form is used throughout.) -/
def lowerStr (s : String) : String := String.mk (s.data.map Char.toLower)

/-- Whitespace-trimming on a character list. -/
def trimChars (l : List Char) : List Char :=
  ((l.dropWhile Char.isWhitespace).reverse.dropWhile Char.isWhitespace).reverse

/-- Python `str.strip()`. -/
def trimStr (s : String) : String := String.mk (trimChars s.data)

/-- Does `needle` occur as a contiguous subsequence of `hay`? -/
def containsSeq (needle : List Char) : List Char → Bool
  | [] => needle.isEmpty
  | a :: rest => needle.isPrefixOf (a :: rest) || containsSeq needle rest

/-- Python `needle in haystack` substring test on strings. -/
def strContains (hay needle : String) : Bool :=
  containsSeq needle.toList hay.toList

/-- Python `any(keyword in content for keyword in keywords)`. -/
def containsAny (content : String) (keywords : List String) : Bool :=
  keywords.any (fun k => strContains content k)

/-- Model of Python `int(s)` on a user message: strips surrounding
whitespace, accepts an optional sign followed by ASCII digits, and returns
the parsed integer; any other shape raises `ValueError`, modelled as
`none`. -/
def pythonInt? (s : String) : Option Int :=
  let t := trimChars s.data
  let p : Bool × List Char :=
    match t with
    | '-' :: rest => (true, rest)
    | '+' :: rest => (false, rest)
    | _ => (false, t)
  if p.2 ≠ [] ∧ p.2.all (fun c => c.isDigit) = true then
    let n : Nat := p.2.foldl (fun acc c => acc * 10 + (c.toNat - 48)) 0
    some (if p.1 then -(n : Int) else (n : Int))
  else none

/-! ## Data model: the three persisted tables (`tools.py`) -/

/-- One row of `patients.csv`. -/
structure PatientRow where
  patientId : Nat
  firstName : String
  lastName : String
  dob : String
  isReturning : Bool
  email : String
  location : String
  phoneNumber : String
  carrier : String
  memberId : String
  groupNumber : String
  deriving Repr, DecidableEq

/-- One row of `doctor_schedules.csv`. -/
structure SlotRow where
  doctorName : String
  date : String
  time : String
  isAvailable : Bool
  deriving Repr, DecidableEq

/-- One row of `appointments_report.csv`. -/
structure ApptRow where
  appointmentId : String
  patientFirstName : String
  patientLastName : String
  patientDob : String
  patientPhone : String
  patientEmail : String
  patientLocation : String
  doctorName : String
  appointmentDate : String
  appointmentTime : String
  durationMinutes : Nat
  isReturningPatient : Bool
  insuranceCarrier : String
  insuranceMemberId : String
  insuranceGroupNumber : String
  createdAt : String
  status : String
  cancellationReason : String
  cancelledAt : String
  deriving Repr, DecidableEq

/-- The three tables owned by `SchedulingTools`. -/
structure Store where
  patients : List PatientRow
  schedule : List SlotRow
  appointments : List ApptRow
  deriving Repr, DecidableEq

/-! ## Conversation bags (`SchedulingState` field dictionaries) -/

/-- The `patient_info` bag as it stands at booking/cancellation time:
the five collected fields plus the returning flag set by the lookup.
`phone_number` is never collected by the dialogue, hence optional
(`patient_info.get('phone_number', 'N/A')` in the source). -/
structure PatientInfo where
  firstName : String
  lastName : String
  dob : String
  location : String
  email : String
  phoneNumber : Option String
  isReturning : Bool
  deriving Repr, DecidableEq

/-- The `insurance_info` bag: `""` means the key is absent/uncollected. -/
structure InsBag where
  carrier : String
  memberId : String
  groupNumber : String
  deriving Repr, DecidableEq

/-- The `appointment_info` bag; fields become set as the flow progresses
(`none` = key absent). `isAvailable` is the stray `is_available` column
copied in by `appointment_info.update(selected_slot)`. -/
structure ApptBag where
  doctorName : Option String
  date : Option String
  time : Option String
  duration : Option Nat
  isAvailable : Option Bool
  deriving Repr, DecidableEq

/-! ## `tools.py` operations -/

/-- `SchedulingTools.lookup_patient`: case-insensitive first/last name
match, exact match on the normalized date of birth; returns the
`is_returning` flag of the first matching row, `False` when no row
matches or the table is missing/empty.  `normalizeDate` abstracts
`_normalize_date_format` (a chain of `datetime.strptime` formats). -/
def lookupPatient (normalizeDate : String → String) (patients : List PatientRow)
    (firstName lastName dob : String) : Bool :=
  let dobF := normalizeDate dob
  match patients.find? (fun r =>
      lowerStr r.firstName == lowerStr firstName &&
      lowerStr r.lastName == lowerStr lastName &&
      r.dob == dobF) with
  | some r => r.isReturning
  | none => false

/-- Insertion of one element into a list sorted by a `Nat` key
(helper for the model of `DataFrame.sort_values`). -/
def insertByKey {α : Type} (key : α → Nat) (x : α) : List α → List α
  | [] => [x]
  | y :: ys => if key x ≤ key y then x :: y :: ys else y :: insertByKey key x ys

/-- Sort by a `Nat` key; models `DataFrame.sort_values('datetime')`.
All claim-relevant properties (membership, length, sortedness) are
invariant under the choice of sorting algorithm. -/
def sortByKey {α : Type} (key : α → Nat) : List α → List α
  | [] => []
  | x :: xs => insertByKey key x (sortByKey key xs)

/-- `SchedulingTools.get_available_slots`: keep future slots, keep
available ones, filter by doctor when one is given (Python truthiness:
`None` and `""` both skip the filter), sort by datetime ascending, return
the first 8.  `parseDT` abstracts `pd.to_datetime(date + ' ' + time)`;
`duration` is accepted and ignored exactly as in the source. -/
def getAvailableSlots (parseDT : String → String → Nat) (now : Nat)
    (schedule : List SlotRow) (doctor : Option String) (_duration : Nat) : List SlotRow :=
  let future := schedule.filter (fun r => decide (now < parseDT r.date r.time))
  let avail := future.filter (fun r => r.isAvailable)
  let byDoc := match doctor with
    | some d => if d = "" then avail else avail.filter (fun r => r.doctorName == d)
    | none => avail
  (sortByKey (fun r => parseDT r.date r.time) byDoc).take 8

/-- `SchedulingTools._add_new_patient`: unconditionally appends a row with
`is_returning = True` ("will be returning after first visit"); the new
numeric id is `max + 1` (or 1 for an empty table). -/
def addNewPatient (patients : List PatientRow) (p : PatientInfo) (ins : InsBag) :
    List PatientRow :=
  let newId := if patients = [] then 1 else (patients.map (·.patientId)).foldl max 0 + 1
  patients ++ [{ patientId := newId
                 firstName := p.firstName
                 lastName := p.lastName
                 dob := p.dob
                 isReturning := true
                 email := p.email
                 location := p.location
                 phoneNumber := p.phoneNumber.getD "N/A"
                 carrier := if ins.carrier = "" then "N/A" else ins.carrier
                 memberId := if ins.memberId = "" then "N/A" else ins.memberId
                 groupNumber := if ins.groupNumber = "" then "N/A" else ins.groupNumber }]

/-- `SchedulingTools._update_schedule_availability`: sets `is_available`
on every row matching (doctor, date, time); a missing/empty schedule
table, or a triple matching no row, leaves the table unchanged. -/
def updateScheduleAvailability (schedule : List SlotRow) (doctor date time : String)
    (avail : Bool) : List SlotRow :=
  schedule.map (fun r =>
    if r.doctorName = doctor ∧ r.date = date ∧ r.time = time then
      { r with isAvailable := avail }
    else r)

/-- The appointment record built inside `save_appointment`. -/
def mkApptRow (newId createdAt : String) (p : PatientInfo) (a : ApptBag)
    (ins : InsBag) : ApptRow :=
  { appointmentId := newId
    patientFirstName := p.firstName
    patientLastName := p.lastName
    patientDob := p.dob
    patientPhone := p.phoneNumber.getD "N/A"
    patientEmail := p.email
    patientLocation := p.location
    doctorName := a.doctorName.getD ""
    appointmentDate := a.date.getD ""
    appointmentTime := a.time.getD ""
    durationMinutes := a.duration.getD 0
    isReturningPatient := p.isReturning
    insuranceCarrier := ins.carrier
    insuranceMemberId := ins.memberId
    insuranceGroupNumber := ins.groupNumber
    createdAt := createdAt
    status := "Confirmed"
    cancellationReason := ""
    cancelledAt := "" }

/-- `SchedulingTools.save_appointment`: adds the patient to the directory
when not returning, appends a `Confirmed` record to the ledger, and asks
the schedule to mark the chosen slot unavailable.  `newId` stands for the
generated `uuid4` token and `createdAt` for `datetime.now()`. -/
def saveAppointment (store : Store) (newId createdAt : String) (p : PatientInfo)
    (a : ApptBag) (ins : InsBag) : String × Store :=
  let patients := if p.isReturning then store.patients else addNewPatient store.patients p ins
  let row := mkApptRow newId createdAt p a ins
  let appointments := store.appointments ++ [row]
  let schedule := updateScheduleAvailability store.schedule
    (a.doctorName.getD "") (a.date.getD "") (a.time.getD "") false
  (newId, { patients := patients, schedule := schedule, appointments := appointments })

/-- `SchedulingTools.cancel_appointment`: looks up the first ledger row with
the given id (`False`, no mutation, when none exists — also covering a
missing or empty ledger file); marks every row with that id `Cancelled`
(recording reason when non-empty, and the timestamp), frees the slot named
by the record, and, when the record's patient was new, removes every
directory row matching that patient identity (case-insensitive names,
exact dob). `cancelledAt` stands for `datetime.now()`. -/
def cancelAppointment (store : Store) (cancelledAt apptId reason : String) :
    Bool × Store :=
  match store.appointments.find? (fun r => r.appointmentId == apptId) with
  | none => (false, store)
  | some appt =>
      let appointments := store.appointments.map (fun r =>
        if r.appointmentId = apptId then
          { r with status := "Cancelled"
                   cancellationReason := if reason ≠ "" then reason else r.cancellationReason
                   cancelledAt := cancelledAt }
        else r)
      let schedule := updateScheduleAvailability store.schedule
        appt.doctorName appt.appointmentDate appt.appointmentTime true
      let patients :=
        if appt.isReturningPatient then store.patients
        else store.patients.filter (fun pr =>
          !(lowerStr pr.firstName == lowerStr appt.patientFirstName &&
            lowerStr pr.lastName == lowerStr appt.patientLastName &&
            pr.dob == appt.patientDob))
      (true, { patients := patients, schedule := schedule, appointments := appointments })

/-! ## `agent.py`: conversation state and dialogue nodes -/

/-- One entry of the LangGraph message history: a `HumanMessage` or an
`AIMessage`, with its text content. -/
structure Msg where
  isHuman : Bool
  content : String
  deriving Repr, DecidableEq

/-- The LangGraph `SchedulingState`.  `current_stage` and `intent` are
`Option` because the corresponding keys are absent until a node first
returns them (`state.get(...)` with a default in the source). -/
structure AgentState where
  messages : List Msg
  currentStage : Option String
  intent : Option String
  patientInfo : PatientInfo
  appointmentInfo : ApptBag
  insuranceInfo : InsBag
  availableSlots : List SlotRow
  appointmentId : Option String
  deriving Repr, DecidableEq

/-- Result of one dialogue node: the merged state (LangGraph keeps every
key the node's returned dictionary omits) plus the reply text tag. -/
structure NodeOut where
  state : AgentState
  reply : String
  deriving Repr, DecidableEq

/-- `AISchedulingAgent.router`: one message forces `greeting`; then a
`cancel` intent forces `cancellation`; a `schedule` intent reads the
stored stage defaulting to `patient_lookup`; anything else reads the
stored stage defaulting to `greeting`. -/
def router (st : AgentState) : String :=
  if st.messages.length ≤ 1 then "greeting"
  else
    let intent := st.intent.getD ""
    if intent = "cancel" then "cancellation"
    else if intent = "schedule" then st.currentStage.getD "patient_lookup"
    else st.currentStage.getD "greeting"

/-- The routing rule exactly as the specification words it ("If the
conversation has exactly one message in history, force `greeting`"), for
comparison with `router`. -/
def routerSpecClaim (st : AgentState) : String :=
  if st.messages.length = 1 then "greeting"
  else
    let intent := st.intent.getD ""
    if intent = "cancel" then "cancellation"
    else if intent = "schedule" then st.currentStage.getD "patient_lookup"
    else st.currentStage.getD "greeting"

/-- The routing rule with the first guard amended to "at most one
message", matching the source's `len(state["messages"]) <= 1`. -/
def routerSpecAmended (st : AgentState) : String :=
  if st.messages.length ≤ 1 then "greeting"
  else
    let intent := st.intent.getD ""
    if intent = "cancel" then "cancellation"
    else if intent = "schedule" then st.currentStage.getD "patient_lookup"
    else st.currentStage.getD "greeting"

/-- `_greeting_node` keyword set for cancellation intent. -/
def cancelKeywords : List String :=
  ["cancel", "cancellation", "remove", "delete", "reschedule"]

/-- `_greeting_node` keyword set for scheduling intent. -/
def scheduleKeywords : List String :=
  ["schedule", "book", "appointment", "new", "visit", "see doctor", "make", "like"]

/-- `_greeting_node`: first turn emits the welcome menu; later human turns
are classified cancel-first, then schedule, else a clarification
re-prompt.  `m` is `state["messages"][-1]`; a non-human last message after
the first turn falls off the end of the Python function (`None`),
modelled as `none`. -/
def greetingNode (st : AgentState) (m : Msg) : Option NodeOut :=
  if st.messages.length ≤ 1 then
    some ⟨{ st with currentStage := some "greeting" }, "WELCOME_MENU"⟩
  else if m.isHuman then
    let c := lowerStr m.content
    if containsAny c cancelKeywords then
      some ⟨{ st with currentStage := some "cancellation", intent := some "cancel" },
            "CANCEL_INTRO"⟩
    else if containsAny c scheduleKeywords then
      some ⟨{ st with currentStage := some "patient_lookup", intent := some "schedule" },
            "SCHEDULE_INTRO"⟩
    else
      some ⟨{ st with currentStage := some "greeting" }, "CLARIFY_CHOICE"⟩
  else none

/-- `appointment_info.update(selected_slot)`: the selected slot record's
columns overwrite the bag's keys of the same names. -/
def bindSlot (a : ApptBag) (s : SlotRow) : ApptBag :=
  { a with doctorName := some s.doctorName
           date := some s.date
           time := some s.time
           isAvailable := some s.isAvailable }

/-- `_calendar_integration_node`: a human message parsing as an in-range
1-based index binds that offered slot and advances to
`insurance_collection`; an out-of-range integer re-prompts in place
(returning only `messages` and `current_stage`, so `available_slots` is
untouched); otherwise the store is queried for slots — a non-empty answer
is offered and stored, an empty one clears the doctor choice and returns
to `smart_scheduling`.  The node only ever reads the store. -/
def calendarIntegrationNode (parseDT : String → String → Nat) (now : Nat)
    (store : Store) (st : AgentState) (m : Msg) : NodeOut × Store :=
  let a := st.appointmentInfo
  let selection : Option NodeOut :=
    if m.isHuman then
      match pythonInt? m.content with
      | some k =>
          let idx := k - 1
          if idx < 0 then
            some ⟨{ st with currentStage := some "calendar_integration" },
                  "PROMPT_VALID_RANGE"⟩
          else
            match st.availableSlots.get? idx.toNat with
            | some s =>
                some ⟨{ st with currentStage := some "insurance_collection",
                                appointmentInfo := bindSlot a s },
                      "SLOT_SELECTED"⟩
            | none =>
                some ⟨{ st with currentStage := some "calendar_integration" },
                      "PROMPT_VALID_RANGE"⟩
      | none => none
    else none
  match selection with
  | some out => (out, store)
  | none =>
      let slots := getAvailableSlots parseDT now store.schedule a.doctorName
        (a.duration.getD 30)
      if slots ≠ [] then
        (⟨{ st with currentStage := some "calendar_integration",
                    availableSlots := slots, appointmentInfo := a },
          "OFFER_SLOTS"⟩, store)
      else
        (⟨{ st with currentStage := some "smart_scheduling",
                    availableSlots := slots,
                    appointmentInfo := { a with doctorName := none } },
          "NO_SLOTS_TRY_OTHER_DOCTOR"⟩, store)

/-- `_insurance_collection_node` self-pay keyword set (note the bare
substring `"no"`). -/
def selfPayKeywords : List String :=
  ["no insurance", "self pay", "self-pay", "i don't have", "paying myself", "cash", "no"]

/-- The merge loop `for key, value in extracted.items(): if value and
value.strip(): insurance_info[key] = value.strip()`. -/
def mergeIns (info extracted : InsBag) : InsBag :=
  { carrier := if extracted.carrier ≠ "" ∧ trimStr extracted.carrier ≠ ""
               then trimStr extracted.carrier else info.carrier
    memberId := if extracted.memberId ≠ "" ∧ trimStr extracted.memberId ≠ ""
                then trimStr extracted.memberId else info.memberId
    groupNumber := if extracted.groupNumber ≠ "" ∧ trimStr extracted.groupNumber ≠ ""
                   then trimStr extracted.groupNumber else info.groupNumber }

/-- `_insurance_collection_node`: a human message containing a self-pay
keyword overwrites the bag with the Self-Pay sentinels and advances
straight to `appointment_confirmation`; otherwise the LLM extraction
result `extracted` (a capability output, passed as a parameter; a failed
or empty extraction is the all-empty bag) is merged non-destructively,
and the node advances only once all three fields are filled. -/
def insuranceCollectionNode (st : AgentState) (m : Msg) (extracted : InsBag) : NodeOut :=
  if m.isHuman ∧ containsAny (lowerStr m.content) selfPayKeywords = true then
    ⟨{ st with currentStage := some "appointment_confirmation",
               insuranceInfo := { carrier := "Self-Pay", memberId := "N/A",
                                  groupNumber := "N/A" } },
     "SELF_PAY_CONFIRMED"⟩
  else
    let info := if m.isHuman then mergeIns st.insuranceInfo extracted else st.insuranceInfo
    if info.carrier ≠ "" ∧ info.memberId ≠ "" ∧ info.groupNumber ≠ "" then
      ⟨{ st with currentStage := some "appointment_confirmation", insuranceInfo := info },
       "INSURANCE_COMPLETE"⟩
    else
      ⟨{ st with currentStage := some "insurance_collection", insuranceInfo := info },
       "PROMPT_MISSING_INSURANCE"⟩

/-- `_appointment_confirmation_node`: commits the booking through
`save_appointment` and always advances to `form_distribution`. -/
def appointmentConfirmationNode (store : Store) (newId createdAt : String)
    (st : AgentState) : NodeOut × Store :=
  let r := saveAppointment store newId createdAt st.patientInfo st.appointmentInfo
    st.insuranceInfo
  (⟨{ st with currentStage := some "form_distribution", appointmentId := some r.1 },
    "CONFIRMATION_SUMMARY"⟩, r.2)

/-! ## Concrete fixtures used by witnesses and counterexamples -/

/-- A conversation state with every bag empty, as after `reset_conversation`. -/
def baseState : AgentState :=
  { messages := []
    currentStage := none
    intent := none
    patientInfo := { firstName := "", lastName := "", dob := "", location := ""
                     email := "", phoneNumber := none, isReturning := false }
    appointmentInfo := { doctorName := none, date := none, time := none
                         duration := none, isAvailable := none }
    insuranceInfo := { carrier := "", memberId := "", groupNumber := "" }
    availableSlots := []
    appointmentId := none }

/-- A sample available schedule slot. -/
def slotA : SlotRow :=
  { doctorName := "Dr. Emily Chen", date := "2026-10-20", time := "09:00"
    isAvailable := true }

/-- An empty store (all three backing files missing or empty). -/
def emptyStore : Store := { patients := [], schedule := [], appointments := [] }

/-- A constant date-time parser used to instantiate `parseDT` in witnesses. -/
def dtFive : String → String → Nat := fun _ _ => 5

/-- A new patient's collected booking information. -/
def pJane : PatientInfo :=
  { firstName := "Jane", lastName := "Doe", dob := "1990-01-01"
    location := "123 Main St", email := "jane.doe@example.com"
    phoneNumber := none, isReturning := false }

/-- An `appointment_info` bag after `slotA` has been selected. -/
def aSlotA : ApptBag :=
  { doctorName := some "Dr. Emily Chen", date := some "2026-10-20"
    time := some "09:00", duration := some 60, isAvailable := some true }

/-- The self-pay sentinel insurance bag. -/
def insSelfPay : InsBag :=
  { carrier := "Self-Pay", memberId := "N/A", groupNumber := "N/A" }

/-- A directory row for Jane Doe tagged not-returning (the seeded sample
data sets `is_returning = bool(i % 2)`, so such rows exist). -/
def janeRowNew : PatientRow :=
  { patientId := 1, firstName := "Jane", lastName := "Doe", dob := "1990-01-01"
    isReturning := false, email := "jane.doe@example.com"
    location := "123 Main St", phoneNumber := "555-0100"
    carrier := "Aetna", memberId := "987654321", groupNumber := "123456" }

/-- A store holding Jane Doe's directory row and one open slot. -/
def storeJane : Store :=
  { patients := [janeRowNew], schedule := [slotA], appointments := [] }

/-- Another collected patient, with an identity distinct from Jane Doe. -/
def pMark : PatientInfo :=
  { firstName := "Mark", lastName := "Lee", dob := "1985-03-15"
    location := "9 Oak Ave", email := "mark.lee@example.com"
    phoneNumber := none, isReturning := false }

/-- The ledger record produced by booking `slotA` for Jane Doe. -/
def apptJane : ApptRow :=
  mkApptRow "A1B2C3D4" "2026-10-12 10:00:00" pJane aSlotA insSelfPay

/-- A store as it stands just after Jane Doe's booking. -/
def storeBooked : Store :=
  { patients := [janeRowNew]
    schedule := [{ slotA with isAvailable := false }]
    appointments := [apptJane] }

/-! ## Claim-level predicates -/

/-- Does schedule row `r` name the (doctor, date, time) triple held in the
appointment bag `a` (the triple `save_appointment` passes to
`_update_schedule_availability`)? -/
def slotMatches (a : ApptBag) (r : SlotRow) : Prop :=
  r.doctorName = a.doctorName.getD "" ∧ r.date = a.date.getD "" ∧
    r.time = a.time.getD ""

instance (a : ApptBag) (r : SlotRow) : Decidable (slotMatches a r) := by
  unfold slotMatches
  infer_instance

/-- The booking-commit atomicity property exactly as claimed: either the
Confirmed record is appended *and* some schedule row for the chosen slot
is flipped unavailable, or the store is left entirely unchanged. -/
def bookingAtomicClaim (store : Store) (newId createdAt : String) (p : PatientInfo)
    (a : ApptBag) (ins : InsBag) : Prop :=
  (saveAppointment store newId createdAt p a ins).2.appointments =
      store.appointments ++ [mkApptRow newId createdAt p a ins] ∧
    (∃ r ∈ (saveAppointment store newId createdAt p a ins).2.schedule,
      slotMatches a r ∧ r.isAvailable = false) ∨
  (saveAppointment store newId createdAt p a ins).2 = store

/-- Do two directory rows carry the same identity tuple
(first name, last name, date of birth)? -/
def sameIdentity (x y : PatientRow) : Prop :=
  x.firstName = y.firstName ∧ x.lastName = y.lastName ∧ x.dob = y.dob

instance (x y : PatientRow) : Decidable (sameIdentity x y) := by
  unfold sameIdentity
  infer_instance

/-- The identity tuple is a key: no two directory rows share it. -/
def uniqueKey (l : List PatientRow) : Prop :=
  l.Pairwise (fun x y => ¬ sameIdentity x y)

instance (l : List PatientRow) : Decidable (uniqueKey l) := by
  unfold uniqueKey
  infer_instance

/-! ## Helper lemmas -/

lemma mem_insertByKey {α : Type} (key : α → Nat) (x : α) (l : List α) (a : α)
    (h : a ∈ insertByKey key x l) : a = x ∨ a ∈ l := by
  induction l with
  | nil => simpa [insertByKey] using h
  | cons y ys ih =>
      rw [insertByKey] at h
      by_cases hc : key x ≤ key y
      · rw [if_pos hc] at h
        simpa using h
      · rw [if_neg hc] at h
        rcases List.mem_cons.mp h with h' | h'
        · exact Or.inr (by simp [h'])
        · rcases ih h' with h'' | h''
          · exact Or.inl h''
          · exact Or.inr (List.mem_cons_of_mem _ h'')

lemma mem_sortByKey {α : Type} (key : α → Nat) (l : List α) (a : α)
    (h : a ∈ sortByKey key l) : a ∈ l := by
  induction l with
  | nil => simp [sortByKey] at h
  | cons x xs ih =>
      rw [sortByKey] at h
      rcases mem_insertByKey key x _ a h with h' | h'
      · simp [h']
      · exact List.mem_cons_of_mem _ (ih h')

lemma sorted_insertByKey {α : Type} (key : α → Nat) (x : α) (l : List α)
    (h : l.Pairwise (fun a b => key a ≤ key b)) :
    (insertByKey key x l).Pairwise (fun a b => key a ≤ key b) := by
  induction l with
  | nil => simp [insertByKey]
  | cons y ys ih =>
      rw [insertByKey]
      rcases List.pairwise_cons.mp h with ⟨hy, hys⟩
      by_cases hc : key x ≤ key y
      · rw [if_pos hc]
        refine List.pairwise_cons.mpr ⟨?_, h⟩
        intro z hz
        rcases List.mem_cons.mp hz with h' | h'
        · exact h' ▸ hc
        · exact le_trans hc (hy z h')
      · rw [if_neg hc]
        refine List.pairwise_cons.mpr ⟨?_, ih hys⟩
        intro z hz
        rcases mem_insertByKey key x ys z hz with h' | h'
        · exact h' ▸ le_of_lt (lt_of_not_le hc)
        · exact hy z h'

lemma sorted_sortByKey {α : Type} (key : α → Nat) (l : List α) :
    (sortByKey key l).Pairwise (fun a b => key a ≤ key b) := by
  induction l with
  | nil => simp [sortByKey]
  | cons x xs ih => exact sorted_insertByKey key x _ ih

lemma find?_append_single {α : Type} (p : α → Bool) (l : List α) (a : α)
    (h : ∀ x ∈ l, p x = false) :
    List.find? p (l ++ [a]) = if p a then some a else none := by
  induction l with
  | nil => cases hpa : p a <;> simp [List.find?, hpa]
  | cons y ys ih =>
      have hy : p y = false := h y (by simp)
      simp only [List.cons_append, List.find?, hy]
      exact ih (fun x hx => h x (List.mem_cons_of_mem _ hx))

lemma updateSched_matched_avail (sched : List SlotRow) (d dt tm : String) (b : Bool) :
    ∀ r ∈ updateScheduleAvailability sched d dt tm b,
      r.doctorName = d ∧ r.date = dt ∧ r.time = tm → r.isAvailable = b := by
  intro r hr hmatch
  rcases List.mem_map.mp hr with ⟨r₀, _, heq⟩
  by_cases hc : r₀.doctorName = d ∧ r₀.date = dt ∧ r₀.time = tm
  · rw [if_pos hc] at heq
    rw [← heq]
  · rw [if_neg hc] at heq
    exact absurd (heq ▸ hmatch) hc

lemma updateSched_matched_mem (sched : List SlotRow) (d dt tm : String) (b : Bool)
    (h : ∃ r ∈ sched, r.doctorName = d ∧ r.date = dt ∧ r.time = tm) :
    ∃ r ∈ updateScheduleAvailability sched d dt tm b,
      r.doctorName = d ∧ r.date = dt ∧ r.time = tm := by
  rcases h with ⟨r, hr, hmatch⟩
  refine ⟨{ r with isAvailable := b }, ?_, ?_⟩
  · exact List.mem_map.mpr ⟨r, hr, by rw [if_pos hmatch]⟩
  · exact hmatch

/-! ## Claim C5: the slot query at `calendar_integration` -/

/-- C5.  For every schedule table and every chosen doctor, the slot query
used at `calendar_integration` returns at most 8 slots; every returned
slot is available, lies strictly in the future at query time, and belongs
to the chosen doctor; and the list is ordered earliest-first by parsed
date-and-time. -/
theorem slot_query_bounded_future_owned_sorted
    (parseDT : String → String → Nat) (now : Nat) (sched : List SlotRow)
    (d : String) (dur : Nat) (hd : d ≠ "") (res : List SlotRow)
    (hres : res = getAvailableSlots parseDT now sched (some d) dur) :
    res.length ≤ 8 ∧
    (∀ r ∈ res, r.isAvailable = true ∧ now < parseDT r.date r.time ∧ r.doctorName = d) ∧
    res.Pairwise (fun a b => parseDT a.date a.time ≤ parseDT b.date b.time) := by
  subst hres
  rw [getAvailableSlots, if_neg hd]
  refine ⟨List.length_take_le 8 _, ?_, ?_⟩
  · intro r hr
    have hsort := mem_sortByKey _ _ r (List.take_subset 8 _ hr)
    have hdoc := List.mem_filter.mp hsort
    have havail := List.mem_filter.mp hdoc.1
    have hfut := List.mem_filter.mp havail.1
    refine ⟨havail.2, ?_, ?_⟩
    · simpa using hfut.2
    · simpa using hdoc.2
  · exact (sorted_sortByKey _ _).sublist (List.take_sublist 8 _)

/-- C5 witness: a singleton schedule with an available future slot for
the chosen doctor. -/
theorem slot_query_bounded_witness :
    ("Dr. Emily Chen" : String) ≠ "" ∧
    getAvailableSlots dtFive 3 [slotA] (some "Dr. Emily Chen") 30 =
      getAvailableSlots dtFive 3 [slotA] (some "Dr. Emily Chen") 30 ∧
    ((getAvailableSlots dtFive 3 [slotA] (some "Dr. Emily Chen") 30).length ≤ 8 ∧
     (∀ r ∈ getAvailableSlots dtFive 3 [slotA] (some "Dr. Emily Chen") 30,
        r.isAvailable = true ∧ 3 < dtFive r.date r.time ∧
          r.doctorName = "Dr. Emily Chen") ∧
     (getAvailableSlots dtFive 3 [slotA] (some "Dr. Emily Chen") 30).Pairwise
       (fun a b => dtFive a.date a.time ≤ dtFive b.date b.time)) :=
  ⟨by decide, rfl,
   slot_query_bounded_future_owned_sorted dtFive 3 [slotA] "Dr. Emily Chen" 30
     (by decide) _ rfl⟩

/-! ## Claim C1: atomicity of the booking commit -/

/-- C1 counterexample.  Booking against a store whose schedule table is
missing/empty (so the chosen slot has no row): the Confirmed ledger
record is still appended, no slot flips, and the store did change — the
claimed "both effects or neither" disjunction is false. -/
theorem booking_atomicity_counterexample :
    ¬ bookingAtomicClaim emptyStore "A1B2C3D4" "2026-10-12 10:00:00" pJane
        aSlotA insSelfPay := by
  intro h
  rcases h with ⟨_, ⟨r, hr, _⟩⟩ | heq
  · simp [saveAppointment, emptyStore, updateScheduleAvailability] at hr
  · have : (saveAppointment emptyStore "A1B2C3D4" "2026-10-12 10:00:00" pJane
        aSlotA insSelfPay).2.appointments = emptyStore.appointments := by rw [heq]
    simp [saveAppointment, emptyStore] at this

/-- C1 amended.  When the chosen (doctor, date, time) triple has a row in
the schedule table, the commit performs both effects: the Confirmed
record is appended to the ledger and every schedule row for that triple
is flipped unavailable (the converse — a slot flip without the ledger
record — can never happen, since the record is appended unconditionally;
the counterexample shows the record can be created *without* a flip when
the triple has no schedule row). -/
theorem booking_commit_amended (store : Store) (newId createdAt : String)
    (p : PatientInfo) (a : ApptBag) (ins : InsBag)
    (h : ∃ r ∈ store.schedule, slotMatches a r) :
    (saveAppointment store newId createdAt p a ins).2.appointments =
      store.appointments ++ [mkApptRow newId createdAt p a ins] ∧
    (mkApptRow newId createdAt p a ins).status = "Confirmed" ∧
    (∀ r ∈ (saveAppointment store newId createdAt p a ins).2.schedule,
      slotMatches a r → r.isAvailable = false) ∧
    (∃ r ∈ (saveAppointment store newId createdAt p a ins).2.schedule,
      slotMatches a r) := by
  refine ⟨rfl, rfl, ?_, ?_⟩
  · intro r hr hm
    exact updateSched_matched_avail store.schedule (a.doctorName.getD "")
      (a.date.getD "") (a.time.getD "") false r hr hm
  · exact updateSched_matched_mem store.schedule (a.doctorName.getD "")
      (a.date.getD "") (a.time.getD "") false h

/-- C1 amended witness: booking `slotA` out of a store that holds it. -/
theorem booking_commit_amended_witness :
    (∃ r ∈ storeJane.schedule, slotMatches aSlotA r) ∧
    ((saveAppointment storeJane "A1B2C3D4" "2026-10-12 10:00:00" pJane aSlotA
        insSelfPay).2.appointments =
      storeJane.appointments ++
        [mkApptRow "A1B2C3D4" "2026-10-12 10:00:00" pJane aSlotA insSelfPay] ∧
    (mkApptRow "A1B2C3D4" "2026-10-12 10:00:00" pJane aSlotA insSelfPay).status =
      "Confirmed" ∧
    (∀ r ∈ (saveAppointment storeJane "A1B2C3D4" "2026-10-12 10:00:00" pJane aSlotA
        insSelfPay).2.schedule, slotMatches aSlotA r → r.isAvailable = false) ∧
    (∃ r ∈ (saveAppointment storeJane "A1B2C3D4" "2026-10-12 10:00:00" pJane aSlotA
        insSelfPay).2.schedule, slotMatches aSlotA r)) :=
  ⟨by decide,
   booking_commit_amended storeJane "A1B2C3D4" "2026-10-12 10:00:00" pJane aSlotA
     insSelfPay (by decide)⟩

/-! ## Claim C4: router precedence -/

/-- C4 counterexample.  The claim routes by "exactly one message"; the
source routes by `len(messages) <= 1`.  On the state with an empty
history and a stored `cancel` intent the code returns `greeting` while
the claimed rule returns `cancellation`. -/
theorem router_claim_counterexample :
    router { baseState with messages := [], intent := some "cancel" } = "greeting" ∧
    routerSpecClaim { baseState with messages := [], intent := some "cancel" } =
      "cancellation" ∧
    router { baseState with messages := [], intent := some "cancel" } ≠
      routerSpecClaim { baseState with messages := [], intent := some "cancel" } := by
  refine ⟨rfl, rfl, ?_⟩
  decide

/-- C4 amended.  The router selects the next stage by the claimed
precedence with the first guard read as "at most one message": at most
one message forces `greeting`; else intent `cancel` forces
`cancellation`; else intent `schedule` uses the stored stage defaulting
to `patient_lookup`; else the stored stage defaulting to `greeting`. -/
theorem router_precedence_amended (st : AgentState) :
    router st = routerSpecAmended st := rfl

/-! ## Claim C9: cancel keywords take precedence in the greeting stage -/

/-- C9.  On any greeting turn after the first, a human message whose
lowercased content contains a cancel keyword (including "reschedule",
and regardless of any schedule keywords also present) sets the intent to
`cancel` and the stage to `cancellation`. -/
theorem greeting_cancel_keyword_precedence (st : AgentState) (m : Msg)
    (hlen : 2 ≤ st.messages.length)
    (hh : m.isHuman = true)
    (hc : containsAny (lowerStr m.content) cancelKeywords = true) :
    greetingNode st m =
      some ⟨{ st with currentStage := some "cancellation", intent := some "cancel" },
            "CANCEL_INTRO"⟩ := by
  have hgt : ¬ st.messages.length ≤ 1 := by omega
  simp [greetingNode, hgt, hh, hc]

/-- C9 witness: "Reschedule my appointment" (which also contains the
schedule keyword "appointment") routes to cancellation. -/
theorem greeting_cancel_keyword_precedence_witness :
    2 ≤ ({ baseState with
            messages := [⟨true, "Hello"⟩, ⟨false, "WELCOME_MENU"⟩,
                         ⟨true, "Reschedule my appointment"⟩] } : AgentState).messages.length ∧
    (⟨true, "Reschedule my appointment"⟩ : Msg).isHuman = true ∧
    containsAny (lowerStr (⟨true, "Reschedule my appointment"⟩ : Msg).content)
      cancelKeywords = true ∧
    greetingNode
      { baseState with
        messages := [⟨true, "Hello"⟩, ⟨false, "WELCOME_MENU"⟩,
                     ⟨true, "Reschedule my appointment"⟩] }
      ⟨true, "Reschedule my appointment"⟩ =
      some ⟨{ baseState with
              messages := [⟨true, "Hello"⟩, ⟨false, "WELCOME_MENU"⟩,
                           ⟨true, "Reschedule my appointment"⟩],
              currentStage := some "cancellation", intent := some "cancel" },
            "CANCEL_INTRO"⟩ :=
  ⟨by decide, by decide, by decide,
   greeting_cancel_keyword_precedence _ _ (by decide) (by decide) (by decide)⟩

/-! ## Claim C10: cancelling an unknown appointment id -/

/-- C10.  For every appointment id that occurs nowhere in the ledger
(including a missing or empty ledger, modelled by the empty list),
`cancel_appointment` returns `False` and leaves all three tables
unchanged. -/
theorem cancel_unknown_id_no_mutation (store : Store) (t apptId reason : String)
    (h : ∀ r ∈ store.appointments, r.appointmentId ≠ apptId) :
    cancelAppointment store t apptId reason = (false, store) := by
  have hnone : store.appointments.find? (fun r => r.appointmentId == apptId) = none := by
    rw [List.find?_eq_none]
    intro x hx
    simpa using h x hx
  rw [cancelAppointment, hnone]

/-- C10 witness: cancelling id "DEADBEEF" against an empty store. -/
theorem cancel_unknown_id_no_mutation_witness :
    (∀ r ∈ emptyStore.appointments, r.appointmentId ≠ "DEADBEEF") ∧
    cancelAppointment emptyStore "2026-10-12 10:00:00" "DEADBEEF" "changed plans" =
      (false, emptyStore) :=
  ⟨by simp [emptyStore],
   cancel_unknown_id_no_mutation _ _ _ _ (by simp [emptyStore])⟩

/-! ## Claim C8: the self-pay keyword check overtriggers on "no" -/

/-- C8.  Any human message whose lowercased content contains a self-pay
keyword — the substring "no" included, even inside another word — makes
the insurance step install the Self-Pay sentinels and jump straight to
`appointment_confirmation`; the result is the same for every possible
extraction output, i.e. extraction is never consulted. -/
theorem insurance_self_pay_shortcut (st : AgentState) (m : Msg) (e e' : InsBag)
    (hh : m.isHuman = true)
    (hc : containsAny (lowerStr m.content) selfPayKeywords = true) :
    insuranceCollectionNode st m e =
      ⟨{ st with currentStage := some "appointment_confirmation",
                 insuranceInfo := { carrier := "Self-Pay", memberId := "N/A",
                                    groupNumber := "N/A" } },
        "SELF_PAY_CONFIRMED"⟩ ∧
    insuranceCollectionNode st m e = insuranceCollectionNode st m e' := by
  constructor <;> simp [insuranceCollectionNode, hh, hc]

/-- C8 witness: "I don't know" contains no self-pay phrase, only the
substring "no" inside "know", yet it triggers the Self-Pay shortcut. -/
theorem insurance_self_pay_shortcut_witness :
    (⟨true, "I don't know"⟩ : Msg).isHuman = true ∧
    containsAny (lowerStr (⟨true, "I don't know"⟩ : Msg).content) selfPayKeywords = true ∧
    (insuranceCollectionNode baseState ⟨true, "I don't know"⟩
        { carrier := "Aetna", memberId := "1", groupNumber := "2" } =
      ⟨{ baseState with currentStage := some "appointment_confirmation",
                        insuranceInfo := { carrier := "Self-Pay", memberId := "N/A",
                                           groupNumber := "N/A" } },
        "SELF_PAY_CONFIRMED"⟩ ∧
    insuranceCollectionNode baseState ⟨true, "I don't know"⟩
        { carrier := "Aetna", memberId := "1", groupNumber := "2" } =
      insuranceCollectionNode baseState ⟨true, "I don't know"⟩
        { carrier := "", memberId := "", groupNumber := "" }) :=
  ⟨by decide, by decide,
   insurance_self_pay_shortcut _ _ _ _ (by decide) (by decide)⟩

/-! ## Claim C7: insurance fields are never blanked out -/

/-- C7.  One insurance-collection step never empties a filled field: a
non-empty carrier / member id / group number stays non-empty, and on the
extraction path (no self-pay shortcut) a field whose extracted value is
empty or whitespace-only keeps its previous value. -/
theorem insurance_fields_preserved (st : AgentState) (m : Msg) (e : InsBag) :
    let info := st.insuranceInfo
    let info' := (insuranceCollectionNode st m e).state.insuranceInfo
    (info.carrier ≠ "" → info'.carrier ≠ "") ∧
    (info.memberId ≠ "" → info'.memberId ≠ "") ∧
    (info.groupNumber ≠ "" → info'.groupNumber ≠ "") ∧
    (¬(m.isHuman = true ∧ containsAny (lowerStr m.content) selfPayKeywords = true) →
      (trimStr e.carrier = "" → info'.carrier = info.carrier) ∧
      (trimStr e.memberId = "" → info'.memberId = info.memberId) ∧
      (trimStr e.groupNumber = "" → info'.groupNumber = info.groupNumber)) := by
  intro info info'
  by_cases hsp : m.isHuman = true ∧ containsAny (lowerStr m.content) selfPayKeywords = true
  · have hi : info' = { carrier := "Self-Pay", memberId := "N/A", groupNumber := "N/A" } := by
      simp only [info', insuranceCollectionNode, if_pos hsp]
    rw [hi]
    refine ⟨fun _ => by decide, fun _ => by decide, fun _ => by decide, fun h => absurd hsp h⟩
  · have hi : info' = if m.isHuman then mergeIns st.insuranceInfo e else st.insuranceInfo := by
      simp only [info', insuranceCollectionNode, if_neg hsp]
      split <;> split <;> rfl
    by_cases hh : m.isHuman = true
    · rw [hi, if_pos hh]
      refine ⟨?_, ?_, ?_, fun _ => ⟨?_, ?_, ?_⟩⟩ <;>
        · intro hx
          simp only [mergeIns]
          split <;> simp_all
    · rw [hi, if_neg hh]
      exact ⟨fun h => h, fun h => h, fun h => h, fun _ => ⟨fun _ => rfl, fun _ => rfl, fun _ => rfl⟩⟩

/-- C7 witness: a filled carrier survives an extraction that returns a
whitespace-only carrier and a new member id. -/
theorem insurance_fields_preserved_witness :
    let st := { baseState with
                insuranceInfo := { carrier := "Aetna", memberId := "", groupNumber := "" } }
    let m : Msg := ⟨true, "member id 12345"⟩
    let e : InsBag := { carrier := "  ", memberId := "12345", groupNumber := "" }
    let info := st.insuranceInfo
    let info' := (insuranceCollectionNode st m e).state.insuranceInfo
    (info.carrier ≠ "" → info'.carrier ≠ "") ∧
    (info.memberId ≠ "" → info'.memberId ≠ "") ∧
    (info.groupNumber ≠ "" → info'.groupNumber ≠ "") ∧
    (¬(m.isHuman = true ∧ containsAny (lowerStr m.content) selfPayKeywords = true) →
      (trimStr e.carrier = "" → info'.carrier = info.carrier) ∧
      (trimStr e.memberId = "" → info'.memberId = info.memberId) ∧
      (trimStr e.groupNumber = "" → info'.groupNumber = info.groupNumber)) :=
  insurance_fields_preserved _ _ _

/-! ## Claim C6: out-of-range slot selection is a pure re-prompt -/

/-- C6.  With a non-empty offered slot list of length N, a human message
parsing as an integer outside 1..N re-prompts: the stored
`available_slots` and the stage (`calendar_integration`) are unchanged
and the store is untouched. -/
theorem calendar_out_of_range_reprompts (parseDT : String → String → Nat) (now : Nat)
    (store : Store) (st : AgentState) (m : Msg) (k : Int)
    (hh : m.isHuman = true)
    (hk : pythonInt? m.content = some k)
    (_hne : st.availableSlots ≠ [])
    (hout : k < 1 ∨ (st.availableSlots.length : Int) < k) :
    (calendarIntegrationNode parseDT now store st m).1.state.availableSlots =
      st.availableSlots ∧
    (calendarIntegrationNode parseDT now store st m).1.state.currentStage =
      some "calendar_integration" ∧
    (calendarIntegrationNode parseDT now store st m).2 = store := by
  have hsel : calendarIntegrationNode parseDT now store st m =
      (⟨{ st with currentStage := some "calendar_integration" },
        "PROMPT_VALID_RANGE"⟩, store) := by
    rcases hout with hlt | hgt
    · simp [calendarIntegrationNode, hh, hk, hlt]
    · have h1 : ¬ k < 1 := by omega
      have hget : st.availableSlots[k.toNat - 1]? = none := by
        apply List.getElem?_eq_none
        omega
      simp [calendarIntegrationNode, hh, hk, h1, hget]
  rw [hsel]
  exact ⟨rfl, rfl, rfl⟩

/-- C6 witness: message "9" against a 5-slot offer. -/
theorem calendar_out_of_range_reprompts_witness :
    (⟨true, "9"⟩ : Msg).isHuman = true ∧
    pythonInt? (⟨true, "9"⟩ : Msg).content = some 9 ∧
    ({ baseState with availableSlots := [slotA, slotA, slotA, slotA, slotA] }
      : AgentState).availableSlots ≠ [] ∧
    ((9 : Int) < 1 ∨
      (({ baseState with availableSlots := [slotA, slotA, slotA, slotA, slotA] }
        : AgentState).availableSlots.length : Int) < 9) ∧
    ((calendarIntegrationNode (fun _ _ => 5) 3 emptyStore
        { baseState with availableSlots := [slotA, slotA, slotA, slotA, slotA] }
        ⟨true, "9"⟩).1.state.availableSlots =
      ({ baseState with availableSlots := [slotA, slotA, slotA, slotA, slotA] }
        : AgentState).availableSlots ∧
    (calendarIntegrationNode (fun _ _ => 5) 3 emptyStore
        { baseState with availableSlots := [slotA, slotA, slotA, slotA, slotA] }
        ⟨true, "9"⟩).1.state.currentStage = some "calendar_integration" ∧
    (calendarIntegrationNode (fun _ _ => 5) 3 emptyStore
        { baseState with availableSlots := [slotA, slotA, slotA, slotA, slotA] }
        ⟨true, "9"⟩).2 = emptyStore) :=
  ⟨by decide, by decide, by decide, by decide,
   calendar_out_of_range_reprompts _ _ _ _ _ 9 (by decide) (by decide) (by decide)
     (by decide)⟩

/-! ## Claim C2: uniqueness of the patient identity key -/

/-- C2 counterexample.  The directory holding only Jane Doe tagged
not-returning satisfies the key invariant; `lookup_patient` classifies
her as not returning, so booking her appends a second row with the very
same identity tuple — the invariant is not preserved. -/
theorem patient_key_counterexample :
    uniqueKey storeJane.patients ∧
    lookupPatient (fun s => s) storeJane.patients "Jane" "Doe" "1990-01-01" = false ∧
    ¬ uniqueKey (saveAppointment storeJane "A1B2C3D4" "2026-10-12 10:00:00" pJane
        aSlotA insSelfPay).2.patients := by
  refine ⟨by decide, by decide, by decide⟩

/-- C2 amended.  The removal performed during cancellation always
preserves uniqueness of the identity tuple; the new-patient insert
preserves it provided the inserted identity does not already occur in
the table (the counterexample shows it is violated when the identity is
present but tagged not-returning). -/
theorem patient_key_uniqueness_amended (tbl : List PatientRow) (p : PatientInfo)
    (ins : InsBag) (store : Store) (t apptId reason : String)
    (hu : uniqueKey tbl)
    (hfresh : ∀ r ∈ tbl, ¬ (r.firstName = p.firstName ∧ r.lastName = p.lastName ∧
      r.dob = p.dob))
    (hu2 : uniqueKey store.patients) :
    uniqueKey (addNewPatient tbl p ins) ∧
    uniqueKey (cancelAppointment store t apptId reason).2.patients := by
  constructor
  · unfold uniqueKey
    simp only [addNewPatient]
    rw [List.pairwise_append]
    refine ⟨hu, List.pairwise_singleton _ _, ?_⟩
    intro x hx y hy
    rw [List.mem_singleton] at hy
    subst hy
    intro hs
    exact hfresh x hx hs
  · rcases hf : store.appointments.find? (fun r => r.appointmentId == apptId)
      with _ | appt
    · simp only [cancelAppointment, hf]
      exact hu2
    · simp only [cancelAppointment, hf]
      by_cases hb : appt.isReturningPatient = true
      · simp only [if_pos hb]
        exact hu2
      · simp only [if_neg hb]
        exact List.Pairwise.sublist (List.filter_sublist _) hu2

/-- C2 amended witness: inserting Mark Lee into Jane Doe's directory, and
cancelling Jane Doe's (new-patient) booking. -/
theorem patient_key_uniqueness_amended_witness :
    uniqueKey storeJane.patients ∧
    (∀ r ∈ storeJane.patients, ¬ (r.firstName = pMark.firstName ∧
      r.lastName = pMark.lastName ∧ r.dob = pMark.dob)) ∧
    uniqueKey storeBooked.patients ∧
    (uniqueKey (addNewPatient storeJane.patients pMark insSelfPay) ∧
     uniqueKey (cancelAppointment storeBooked "2026-10-13 08:00:00" "A1B2C3D4"
        "changed plans").2.patients) :=
  ⟨by decide, by decide, by decide,
   patient_key_uniqueness_amended storeJane.patients pMark insSelfPay storeBooked
     "2026-10-13 08:00:00" "A1B2C3D4" "changed plans"
     (by decide) (by decide) (by decide)⟩

/-! ## Claim C3: booking then cancelling is a round trip -/

/-- C3.  Booking a slot that exists in the schedule under a fresh
appointment id and then cancelling that id: the cancellation succeeds,
every schedule row for the booked (doctor, date, time) is available
again, and — when the patient was flagged new at lookup time — no
directory row with the booked identity remains (in particular the row the
booking created is gone). -/
theorem booking_then_cancelling_round_trip (store : Store) (p : PatientInfo)
    (a : ApptBag) (ins : InsBag) (newId t t2 reason : String)
    (hid : ∀ r ∈ store.appointments, r.appointmentId ≠ newId)
    (hslot : ∃ r ∈ store.schedule, slotMatches a r) :
    (cancelAppointment (saveAppointment store newId t p a ins).2 t2 newId
      reason).1 = true ∧
    (∀ r ∈ (cancelAppointment (saveAppointment store newId t p a ins).2 t2 newId
        reason).2.schedule, slotMatches a r → r.isAvailable = true) ∧
    (∃ r ∈ (cancelAppointment (saveAppointment store newId t p a ins).2 t2 newId
        reason).2.schedule, slotMatches a r) ∧
    (p.isReturning = false →
      ∀ pr ∈ (cancelAppointment (saveAppointment store newId t p a ins).2 t2 newId
          reason).2.patients,
        ¬ (lowerStr pr.firstName = lowerStr p.firstName ∧
           lowerStr pr.lastName = lowerStr p.lastName ∧ pr.dob = p.dob)) := by
  have hfind : (saveAppointment store newId t p a ins).2.appointments.find?
      (fun r => r.appointmentId == newId) = some (mkApptRow newId t p a ins) := by
    have hrow : (saveAppointment store newId t p a ins).2.appointments =
        store.appointments ++ [mkApptRow newId t p a ins] := rfl
    rw [hrow, find?_append_single]
    · simp [mkApptRow]
    · intro x hx
      simpa using hid x hx
  refine ⟨?_, ?_, ?_, ?_⟩
  · simp only [cancelAppointment, hfind]
  · simp only [cancelAppointment, hfind]
    intro r hr hm
    rcases hm with ⟨h1, h2, h3⟩
    exact updateSched_matched_avail _ _ _ _ _ r hr ⟨h1, h2, h3⟩
  · simp only [cancelAppointment, hfind]
    have step1 : ∃ r ∈ (saveAppointment store newId t p a ins).2.schedule,
        r.doctorName = a.doctorName.getD "" ∧ r.date = a.date.getD "" ∧
        r.time = a.time.getD "" := by
      apply updateSched_matched_mem
      simpa [slotMatches] using hslot
    have step2 := updateSched_matched_mem
      (saveAppointment store newId t p a ins).2.schedule
      (a.doctorName.getD "") (a.date.getD "") (a.time.getD "") true step1
    simpa [slotMatches] using step2
  · intro hp
    simp only [cancelAppointment, hfind]
    have hb : (mkApptRow newId t p a ins).isReturningPatient = false := hp
    simp only [hb]
    intro pr hpr
    have h2 := (List.mem_filter.mp hpr).2
    simp [mkApptRow] at h2
    tauto

/-- C3 witness: Jane Doe (a new patient) books `slotA` out of `storeJane`
and the booking is immediately cancelled. -/
theorem booking_then_cancelling_round_trip_witness :
    (∀ r ∈ storeJane.appointments, r.appointmentId ≠ "A1B2C3D4") ∧
    (∃ r ∈ storeJane.schedule, slotMatches aSlotA r) ∧
    ((cancelAppointment (saveAppointment storeJane "A1B2C3D4" "2026-10-12 10:00:00"
        pJane aSlotA insSelfPay).2 "2026-10-13 08:00:00" "A1B2C3D4"
        "changed plans").1 = true ∧
    (∀ r ∈ (cancelAppointment (saveAppointment storeJane "A1B2C3D4"
        "2026-10-12 10:00:00" pJane aSlotA insSelfPay).2 "2026-10-13 08:00:00"
        "A1B2C3D4" "changed plans").2.schedule,
      slotMatches aSlotA r → r.isAvailable = true) ∧
    (∃ r ∈ (cancelAppointment (saveAppointment storeJane "A1B2C3D4"
        "2026-10-12 10:00:00" pJane aSlotA insSelfPay).2 "2026-10-13 08:00:00"
        "A1B2C3D4" "changed plans").2.schedule, slotMatches aSlotA r) ∧
    (pJane.isReturning = false →
      ∀ pr ∈ (cancelAppointment (saveAppointment storeJane "A1B2C3D4"
          "2026-10-12 10:00:00" pJane aSlotA insSelfPay).2 "2026-10-13 08:00:00"
          "A1B2C3D4" "changed plans").2.patients,
        ¬ (lowerStr pr.firstName = lowerStr pJane.firstName ∧
           lowerStr pr.lastName = lowerStr pJane.lastName ∧
           pr.dob = pJane.dob))) :=
  ⟨by decide, by decide,
   booking_then_cancelling_round_trip storeJane pJane aSlotA insSelfPay
     "A1B2C3D4" "2026-10-12 10:00:00" "2026-10-13 08:00:00" "changed plans"
     (by decide) (by decide)⟩

end SchedAgent
